import Mathlib

/-!
Shallow embedding of the Zeta signaling server (`src/server.js`).

The repository ships two server variants concatenated in one file:

* Variant A (lines 1-398): a single exclusive Android (Source) slot
  `androidClient`, a `browserClients` map keyed by the socket, per-socket
  ping intervals and a `connectionTimestamps` map.
* Variant B (lines 399-675, the "Render edition"): `androidClients` and
  `browserClients` Maps keyed by the string client id, with
  `cleanupAndroidClient`/`cleanupBrowserClient` teardown helpers.

Sockets are identified here by their client-id string (`ip-Date.now()` in
the source); JavaScript `Map`s become insertion-ordered association lists
with JS `Map.set`/`Map.delete` semantics.  Wall-clock readings
(`Date.now()`, the ISO `serverTime` string) are `Nat` parameters.  The
observable I/O of a handler (socket sends, socket closes, console error
reports) is returned as an explicit list of effects.
-/

namespace Zeta

/-- One wire envelope: a JSON object with a required `type` field and the
optional fields the server reads or writes.  Unmodelled payload fields
(SDP, ICE, ...) are opaque to the server and irrelevant to routing. -/
structure Msg where
  type : String
  client : Option String := none
  timestamp : Option Nat := none
  serverTime : Option Nat := none
  message : Option String := none
  status : Option String := none
  browserId : Option String := none
  androidId : Option String := none
  camera : Option String := none
  count : Option Nat := none
  id : Option String := none
  reason : Option String := none
  ip : Option String := none
  clientId : Option String := none
deriving DecidableEq, Repr

/-- Observable side effects of processing one event: a successful
`ws.send`, a send that threw (caught by the server), a `ws.close` issued
by the server, and a `console.error` report. -/
inductive Effect where
  | sent (target : String) (m : Msg)
  | sendFailed (target : String)
  | closed (target : String) (code : Nat) (reason : String)
  | logError (report : String)
deriving DecidableEq, Repr

/-- Transport environment: `isOpen c` models `readyState === OPEN` for the
socket of connection `c`; `sendOk c` models whether a `send` call on that
socket returns normally (false = it throws, e.g. the socket closed
mid-broadcast after the readiness check). -/
structure Env where
  isOpen : String → Bool
  sendOk : String → Bool

/-- JS `Map.has`. -/
def mapHas {α : Type} (m : List (String × α)) (k : String) : Bool :=
  m.any fun p => p.1 == k

/-- JS `Map.get` (`none` when absent). -/
def mapGet? {α : Type} (m : List (String × α)) (k : String) : Option α :=
  (m.find? fun p => p.1 == k).map Prod.snd

/-- JS `Map.set`: update in place when the key exists (keeping its
position in iteration order), otherwise append. -/
def mapSet {α : Type} (m : List (String × α)) (k : String) (v : α) : List (String × α) :=
  if mapHas m k then m.map fun p => if p.1 = k then (k, v) else p
  else m ++ [(k, v)]

/-- JS `Map.delete` (the caller can read absence off `mapHas`). -/
def mapDelete {α : Type} (m : List (String × α)) (k : String) : List (String × α) :=
  m.filter fun p => p.1 != k

/-- Reply built by both variants for an inbound `ping`:
`{ type: 'pong', timestamp: Date.now(), serverTime: new Date().toISOString() }`.
Both fields are server clock readings of the same instant `now`; nothing
from the inbound envelope is echoed. -/
def pongMsg (now : Nat) : Msg :=
  { type := "pong", timestamp := some now, serverTime := some now }

namespace VariantA

/-- Value stored in variant A's `browserClients` map:
`{ id, ip, connectedAt }`. -/
structure BrowserInfo where
  id : String
  ip : String
  connectedAt : Nat
deriving DecidableEq, Repr

/-- Mutable state of variant A: the exclusive `androidClient` slot, the
`browserClients` map (keyed by socket), the set of sockets with a live
ping interval, and the `connectionTimestamps` map. -/
structure StateA where
  androidClient : Option String := none
  browserClients : List (String × BrowserInfo) := []
  pingIntervals : List String := []
  connectionTimestamps : List (String × Nat) := []
deriving DecidableEq, Repr

/-- Source `stopPingInterval(ws)`: clear and forget the socket's interval
and delete its `connectionTimestamps` entry. -/
def stopPingInterval (s : StateA) (ws : String) : StateA :=
  { s with
    pingIntervals := s.pingIntervals.filter fun w => w != ws
    connectionTimestamps := mapDelete s.connectionTimestamps ws }

/-- Source `startPingInterval(ws, ...)`: stop any previous interval, then
record a fresh interval and stamp `connectionTimestamps`. -/
def startPingInterval (s : StateA) (ws : String) (now : Nat) : StateA :=
  let s := stopPingInterval s ws
  { s with
    pingIntervals := s.pingIntervals ++ [ws]
    connectionTimestamps := mapSet s.connectionTimestamps ws now }

/-- Result of variant A's `broadcastToBrowsers`: the per-recipient send
effects plus the `successCount`/`errorCount` tallies it accumulates. -/
structure BroadcastResult where
  effects : List Effect
  successCount : Nat
  errorCount : Nat
deriving DecidableEq, Repr

/-- Variant A `broadcastToBrowsers(message)`: iterate the browser map in
order; skip sockets whose `readyState` is not OPEN; `try { send }` each
open socket, counting successes and caught send errors separately. -/
def broadcastToBrowsers (env : Env) (browsers : List (String × BrowserInfo)) (m : Msg) :
    BroadcastResult :=
  match browsers with
  | [] => ⟨[], 0, 0⟩
  | (c, _) :: rest =>
    let r := broadcastToBrowsers env rest m
    if env.isOpen c then
      if env.sendOk c then ⟨Effect.sent c m :: r.effects, r.successCount + 1, r.errorCount⟩
      else ⟨Effect.sendFailed c :: r.effects, r.successCount, r.errorCount + 1⟩
    else r

/-- Error reply sent by variant A's catch block for undecodable frames. -/
def invalidFormatMsg (now : Nat) : Msg :=
  { type := "error", message := some "Invalid message format", timestamp := some now }

/-- Error reply sent by variant A when a browser relays while no Android
socket is connected and open. -/
def noAndroidMsg (now : Nat) : Msg :=
  { type := "error", message := some "Android client not connected", timestamp := some now }

/-- Variant A `ws.on('message')` handler.  `ws` is the sender's id,
`ip` its remote address, `data` the decoded envelope (`none` = the frame
failed `JSON.parse` and control jumped to the catch block), `now` the
server clock.  Mirrors `src/server.js` lines 87-215 branch for branch;
note `connectionTimestamps.set(ws, Date.now())` runs before the parse. -/
def handleMessage (env : Env) (s : StateA) (ws ip : String) (data : Option Msg) (now : Nat) :
    StateA × List Effect :=
  let s := { s with connectionTimestamps := mapSet s.connectionTimestamps ws now }
  match data with
  | none =>
    (s, [Effect.logError "Parse error", Effect.sent ws (invalidFormatMsg now)])
  | some m =>
    if m.type = "ping" then
      (s, [Effect.sent ws (pongMsg now)])
    else if m.type = "pong" then
      (s, [])
    else if m.type = "client-type" then
      if m.client = some "android" then
        let prior :=
          match s.androidClient with
          | some old => if old = ws then (s, ([] : List Effect))
              else (stopPingInterval s old, [Effect.closed old 1000 "Replaced by new connection"])
          | none => (s, [])
        let s := { prior.1 with androidClient := some ws }
        let s := startPingInterval s ws now
        let r := broadcastToBrowsers env s.browserClients
          { type := "android-connected", timestamp := some now, id := some ws, ip := some ip }
        (s, prior.2 ++ r.effects)
      else if m.client = some "browser" then
        let s := { s with browserClients := mapSet s.browserClients ws ⟨ws, ip, now⟩ }
        let s := startPingInterval s ws now
        match s.androidClient with
        | some a =>
          if env.isOpen a then
            (s, [Effect.sent a { type := "request-offer", timestamp := some now, browserId := some ws }])
          else
            (s, [Effect.sent ws { type := "android-status", status := some "disconnected", timestamp := some now }])
        | none =>
          (s, [Effect.sent ws { type := "android-status", status := some "disconnected", timestamp := some now }])
      else (s, [])
    else if m.type = "camera-status" then
      (s, (broadcastToBrowsers env s.browserClients m).effects)
    else if m.type = "camera-error" then
      (s, (broadcastToBrowsers env s.browserClients m).effects)
    else if s.androidClient = some ws then
      (s, (broadcastToBrowsers env s.browserClients m).effects)
    else if mapHas s.browserClients ws then
      match s.androidClient with
      | some a =>
        if env.isOpen a then (s, [Effect.sent a m])
        else (s, [Effect.sent ws (noAndroidMsg now)])
      | none => (s, [Effect.sent ws (noAndroidMsg now)])
    else (s, [])

/-- Variant A `ws.on('close')` handler (src/server.js lines 217-241). -/
def handleClose (env : Env) (s : StateA) (ws reason : String) (now : Nat) :
    StateA × List Effect :=
  let s := stopPingInterval s ws
  let android :=
    if s.androidClient = some ws then
      let s := { s with androidClient := none }
      (s, (broadcastToBrowsers env s.browserClients
        { type := "android-disconnected", timestamp := some now, reason := some reason }).effects)
    else (s, ([] : List Effect))
  let s := android.1
  let s :=
    if mapHas s.browserClients ws then { s with browserClients := mapDelete s.browserClients ws }
    else s
  (s, android.2)

/-- One externally triggered registry event for variant A: an inbound
frame on a connection, or that connection's transport close. -/
inductive Op where
  | msg (ws ip : String) (data : Option Msg) (now : Nat)
  | close (ws reason : String) (now : Nat)
deriving DecidableEq, Repr

/-- State transition of one event (effects discarded). -/
def step (env : Env) (s : StateA) (op : Op) : StateA :=
  match op with
  | .msg ws ip d now => (handleMessage env s ws ip d now).1
  | .close ws reason now => (handleClose env s ws reason now).1

/-- Run a whole event sequence from a starting state. -/
def run (env : Env) (s : StateA) (ops : List Op) : StateA :=
  ops.foldl (step env) s

/-- Connection ids that send a `client-type` envelope with the given
`client` value somewhere in the sequence. -/
def regTargets (ops : List Op) (role : String) : List String :=
  ops.filterMap fun op =>
    match op with
    | .msg ws _ (some m) _ =>
      if m.type = "client-type" ∧ m.client = some role then some ws else none
    | _ => none

end VariantA

namespace VariantB

/-- Value stored in variant B's `androidClients` map:
`{ ws, lastSeen, ip }` (the socket handle is the map key here). -/
structure AndroidClient where
  lastSeen : Nat
  ip : String
deriving DecidableEq, Repr

/-- Value stored in variant B's `browserClients` map:
`{ ws, browserId, lastSeen }`. -/
structure BrowserClient where
  browserId : String
  lastSeen : Nat
deriving DecidableEq, Repr

/-- Mutable state of variant B: the `androidClients` and `browserClients`
Maps, both keyed by the client-id string. -/
structure StateB where
  androidClients : List (String × AndroidClient) := []
  browserClients : List (String × BrowserClient) := []
deriving DecidableEq, Repr

/-- Result of variant B's `broadcastToBrowsers`: the per-recipient
effects and the `successCount` tally (variant B keeps no error count;
each caught send error is only reported via `console.error`, which shows
up as a `sendFailed` effect). -/
structure BroadcastResult where
  effects : List Effect
  successCount : Nat
deriving DecidableEq, Repr

/-- Variant B `broadcastToBrowsers(message)` (src/server.js lines
610-628). -/
def broadcastToBrowsers (env : Env) (browsers : List (String × BrowserClient)) (m : Msg) :
    BroadcastResult :=
  match browsers with
  | [] => ⟨[], 0⟩
  | (c, _) :: rest =>
    let r := broadcastToBrowsers env rest m
    if env.isOpen c then
      if env.sendOk c then ⟨Effect.sent c m :: r.effects, r.successCount + 1⟩
      else ⟨Effect.sendFailed c :: r.effects, r.successCount⟩
    else r

/-- Envelope broadcast by `cleanupAndroidClient`. -/
def androidDisconnectedMsg (clientId : String) (now : Nat) : Msg :=
  { type := "android-disconnected", androidId := some clientId, timestamp := some now }

/-- Variant B `cleanupAndroidClient(clientId)` (src/server.js lines
630-639): delete the record, then unconditionally broadcast
`android-disconnected` to all browsers. -/
def cleanupAndroidClient (env : Env) (s : StateB) (clientId : String) (now : Nat) :
    StateB × List Effect :=
  let s := { s with androidClients := mapDelete s.androidClients clientId }
  (s, (broadcastToBrowsers env s.browserClients (androidDisconnectedMsg clientId now)).effects)

/-- Variant B `cleanupBrowserClient(clientId)` (src/server.js lines
641-644): delete the record; no outbound notification. -/
def cleanupBrowserClient (s : StateB) (clientId : String) : StateB :=
  { s with browserClients := mapDelete s.browserClients clientId }

/-- `androidClients.values().next().value`: the first Source in the Map's
insertion order (paired here with its key for bookkeeping). -/
def firstSource (s : StateB) : Option (String × AndroidClient) :=
  s.androidClients.head?

/-- Variant B `ws.on('message')` handler (src/server.js lines 489-591).
`data = none` models a frame that failed `JSON.parse` (the catch block
only logs).  Unlike variant A there is no activity-timestamp update at
entry; `lastSeen` moves only in the registration and relay branches. -/
def handleMessage (env : Env) (s : StateB) (clientId ip : String) (data : Option Msg)
    (now : Nat) : StateB × List Effect :=
  match data with
  | none => (s, [Effect.logError "Parse error"])
  | some m =>
    if m.type = "ping" then
      (s, [Effect.sent clientId (pongMsg now)])
    else if m.type = "pong" then
      (s, [])
    else if m.type = "client-type" then
      if m.client = some "android" then
        let s := { s with androidClients := mapSet s.androidClients clientId ⟨now, ip⟩ }
        let r := broadcastToBrowsers env s.browserClients
          { type := "android-connected", androidId := some clientId, timestamp := some now }
        (s, r.effects ++ [Effect.sent clientId
          { type := "welcome", clientId := some clientId,
            message := some "Connected to Zeta Cloud Server" }])
      else if m.client = some "browser" then
        let browserId := m.browserId.getD clientId
        let s := { s with browserClients := mapSet s.browserClients clientId ⟨browserId, now⟩ }
        if s.androidClients.length > 0 then
          let avail := Effect.sent clientId
            { type := "android-available", count := some s.androidClients.length,
              timestamp := some now }
          match s.androidClients.head? with
          | some (aid, _) =>
            if env.isOpen aid then
              (s, [avail, Effect.sent aid
                { type := "request-offer", browserId := some browserId, timestamp := some now }])
            else (s, [avail])
          | none => (s, [avail])
        else (s, [])
      else (s, [])
    else if mapHas s.androidClients clientId then
      let s :=
        match mapGet? s.androidClients clientId with
        | some a0 => { s with androidClients := mapSet s.androidClients clientId { a0 with lastSeen := now } }
        | none => s
      let m := { m with androidId := some clientId }
      (s, (broadcastToBrowsers env s.browserClients m).effects)
    else if mapHas s.browserClients clientId then
      match mapGet? s.browserClients clientId with
      | some browser =>
        let s := { s with browserClients := mapSet s.browserClients clientId { browser with lastSeen := now } }
        let m := { m with browserId := some browser.browserId }
        match m.androidId with
        | some aid =>
          if mapHas s.androidClients aid then
            if env.isOpen aid then (s, [Effect.sent aid m]) else (s, [])
          else
            match s.androidClients.head? with
            | some (fid, _) => if env.isOpen fid then (s, [Effect.sent fid m]) else (s, [])
            | none => (s, [])
        | none =>
          match s.androidClients.head? with
          | some (fid, _) => if env.isOpen fid then (s, [Effect.sent fid m]) else (s, [])
          | none => (s, [])
      | none => (s, [])
    else (s, [])

/-- Variant B `ws.on('close')` handler (src/server.js lines 593-603). -/
def handleClose (env : Env) (s : StateB) (clientId : String) (now : Nat) :
    StateB × List Effect :=
  let android :=
    if mapHas s.androidClients clientId then cleanupAndroidClient env s clientId now
    else (s, ([] : List Effect))
  let s := android.1
  let s :=
    if mapHas s.browserClients clientId then cleanupBrowserClient s clientId
    else s
  (s, android.2)

/-- One externally triggered registry event for variant B: an inbound
frame on a connection, or that connection's transport close. -/
inductive Op where
  | msg (clientId ip : String) (data : Option Msg) (now : Nat)
  | close (clientId : String) (now : Nat)
deriving DecidableEq, Repr

/-- State transition of one event (effects discarded). -/
def step (env : Env) (s : StateB) (op : Op) : StateB :=
  match op with
  | .msg c ip d now => (handleMessage env s c ip d now).1
  | .close c now => (handleClose env s c now).1

/-- Run a whole event sequence from a starting state. -/
def run (env : Env) (s : StateB) (ops : List Op) : StateB :=
  ops.foldl (step env) s

/-- Connection ids that send a `client-type` envelope with the given
`client` value somewhere in the sequence. -/
def regTargets (ops : List Op) (role : String) : List String :=
  ops.filterMap fun op =>
    match op with
    | .msg c _ (some m) _ =>
      if m.type = "client-type" ∧ m.client = some role then some c else none
    | _ => none

end VariantB

/-- Envelope `{ type: 'client-type', client: role }`. -/
def clientTypeMsg (role : String) : Msg :=
  { type := "client-type", client := some role }

/-- Fully permissive transport environment (every socket open, every send
succeeding); used to instantiate concrete scenarios. -/
def env0 : Env := ⟨fun _ => true, fun _ => true⟩

/-- Number of per-recipient send failures reported (each corresponds to
one caught exception and one `console.error` line in the source). -/
def failedCount (effs : List Effect) : Nat :=
  (effs.filter fun e => match e with | Effect.sendFailed _ => true | _ => false).length

/-- Number of envelopes of the given `type` delivered to the given
target among a list of effects. -/
def sentCountTo (effs : List Effect) (target ty : String) : Nat :=
  (effs.filter fun e => match e with
    | Effect.sent t msg => t == target && msg.type == ty
    | _ => false).length

theorem mapHas_iff {α : Type} (m : List (String × α)) (k : String) :
    mapHas m k = true ↔ k ∈ m.map Prod.fst := by
  induction m with
  | nil => simp [mapHas]
  | cons p rest ih =>
    simp only [mapHas, List.any_cons, Bool.or_eq_true, List.map_cons, List.mem_cons,
      beq_iff_eq] at *
    constructor
    · rintro (h | h)
      · exact Or.inl h.symm
      · exact Or.inr (ih.mp h)
    · rintro (h | h)
      · exact Or.inl h.symm
      · exact Or.inr (ih.mpr h)

theorem mapHas_mapDelete_iff {α : Type} (m : List (String × α)) (k k' : String) :
    mapHas (mapDelete m k) k' = true ↔ (mapHas m k' = true ∧ k' ≠ k) := by
  rw [mapHas_iff, mapHas_iff]
  simp [mapDelete, List.mem_map, List.mem_filter, bne_iff_ne]

theorem keys_mapSet {α : Type} (m : List (String × α)) (k : String) (v : α) :
    (mapSet m k v).map Prod.fst =
      if mapHas m k then m.map Prod.fst else m.map Prod.fst ++ [k] := by
  unfold mapSet
  by_cases h : mapHas m k = true
  · simp only [h, if_true, List.map_map]
    apply List.map_congr_left
    intro p _
    by_cases hp : p.1 = k <;> simp [Function.comp, hp]
  · simp [h]

theorem mapHas_mapSet_iff {α : Type} (m : List (String × α)) (k k' : String) (v : α) :
    mapHas (mapSet m k v) k' = true ↔ (mapHas m k' = true ∨ k' = k) := by
  rw [mapHas_iff, keys_mapSet]
  by_cases h : mapHas m k = true
  · simp only [h, if_true]
    rw [← mapHas_iff]
    constructor
    · exact Or.inl
    · rintro (h' | rfl)
      · exact h'
      · exact h
  · rw [if_neg h]
    simp only [List.mem_append, List.mem_singleton]
    rw [← mapHas_iff]

theorem mapHas_of_mapGet? {α : Type} (m : List (String × α)) (k : String) (v : α)
    (h : mapGet? m k = some v) : mapHas m k = true := by
  unfold mapGet? at h
  rcases Option.map_eq_some'.mp h with ⟨p, hfind, _⟩
  have hmem := List.mem_of_find?_eq_some hfind
  have hpred := List.find?_some hfind
  exact List.any_eq_true.mpr ⟨p, hmem, hpred⟩

theorem handleCloseB_androidClients (env : Env) (s : VariantB.StateB) (cid : String) (now : Nat) :
    (VariantB.handleClose env s cid now).1.androidClients =
      if mapHas s.androidClients cid then mapDelete s.androidClients cid
      else s.androidClients := by
  simp only [VariantB.handleClose, VariantB.cleanupAndroidClient, VariantB.cleanupBrowserClient]
  by_cases hA : mapHas s.androidClients cid = true
  · rw [if_pos hA, if_pos hA]
    split <;> rfl
  · rw [if_neg hA, if_neg hA]
    split <;> rfl

theorem handleCloseB_browserClients (env : Env) (s : VariantB.StateB) (cid : String) (now : Nat) :
    (VariantB.handleClose env s cid now).1.browserClients =
      if mapHas s.browserClients cid then mapDelete s.browserClients cid
      else s.browserClients := by
  simp only [VariantB.handleClose, VariantB.cleanupAndroidClient, VariantB.cleanupBrowserClient]
  by_cases hA : mapHas s.androidClients cid = true
  · rw [if_pos hA]
    split <;> rfl
  · rw [if_neg hA]
    split <;> rfl

theorem stepB_android_origin (env : Env) (s : VariantB.StateB) (op : VariantB.Op) (c : String)
    (h : mapHas (VariantB.step env s op).androidClients c = true) :
    mapHas s.androidClients c = true ∨ c ∈ VariantB.regTargets [op] "android" := by
  cases op with
  | close cid now =>
    left
    rw [VariantB.step, handleCloseB_androidClients] at h
    by_cases hc : mapHas s.androidClients cid = true
    · rw [if_pos hc] at h
      exact ((mapHas_mapDelete_iff _ _ _).mp h).1
    · rwa [if_neg hc] at h
  | msg cid ip d now =>
    cases d with
    | none => exact Or.inl h
    | some m =>
      simp only [VariantB.step, VariantB.handleMessage] at h
      by_cases h1 : m.type = "ping"
      · rw [if_pos h1] at h; exact Or.inl h
      rw [if_neg h1] at h
      by_cases h2 : m.type = "pong"
      · rw [if_pos h2] at h; exact Or.inl h
      rw [if_neg h2] at h
      by_cases h3 : m.type = "client-type"
      · rw [if_pos h3] at h
        by_cases h4 : m.client = some "android"
        · rw [if_pos h4] at h
          rcases (mapHas_mapSet_iff _ _ _ _).mp h with h' | rfl
          · exact Or.inl h'
          · right
            simp [VariantB.regTargets, h3, h4]
        rw [if_neg h4] at h
        by_cases h5 : m.client = some "browser"
        · rw [if_pos h5] at h
          left
          by_cases h6 : s.androidClients.length > 0
          · rw [if_pos h6] at h
            cases hh : s.androidClients.head? with
            | none => rw [hh] at h; simpa using h
            | some p =>
              rw [hh] at h
              obtain ⟨aid, a0⟩ := p
              simp only at h
              by_cases h7 : env.isOpen aid = true
              · rw [if_pos h7] at h; simpa using h
              · rw [if_neg h7] at h; simpa using h
          · rw [if_neg h6] at h; simpa using h
        · rw [if_neg h5] at h; exact Or.inl h
      rw [if_neg h3] at h
      by_cases h6 : mapHas s.androidClients cid = true
      · rw [if_pos h6] at h
        left
        cases hg : mapGet? s.androidClients cid with
        | none => rw [hg] at h; simpa using h
        | some a0 =>
          rw [hg] at h
          simp only at h
          rcases (mapHas_mapSet_iff _ _ _ _).mp h with h' | rfl
          · exact h'
          · exact h6
      rw [if_neg h6] at h
      by_cases h7 : mapHas s.browserClients cid = true
      · rw [if_pos h7] at h
        left
        cases hg : mapGet? s.browserClients cid with
        | none => rw [hg] at h; simpa using h
        | some b0 =>
          rw [hg] at h
          simp only at h
          cases hA : m.androidId with
          | none =>
            rw [hA] at h
            simp only at h
            cases hh : s.androidClients.head? with
            | none => rw [hh] at h; simpa using h
            | some p =>
              rw [hh] at h
              obtain ⟨fid, f0⟩ := p
              simp only at h
              by_cases h8 : env.isOpen fid = true
              · rw [if_pos h8] at h; simpa using h
              · rw [if_neg h8] at h; simpa using h
          | some aid =>
            rw [hA] at h
            simp only at h
            by_cases h9 : mapHas s.androidClients aid = true
            · rw [if_pos h9] at h
              by_cases h10 : env.isOpen aid = true
              · rw [if_pos h10] at h; simpa using h
              · rw [if_neg h10] at h; simpa using h
            · rw [if_neg h9] at h
              cases hh : s.androidClients.head? with
              | none => rw [hh] at h; simpa using h
              | some p =>
                rw [hh] at h
                obtain ⟨fid, f0⟩ := p
                simp only at h
                by_cases h8 : env.isOpen fid = true
                · rw [if_pos h8] at h; simpa using h
                · rw [if_neg h8] at h; simpa using h
      · rw [if_neg h7] at h; exact Or.inl h

theorem stepB_browser_origin (env : Env) (s : VariantB.StateB) (op : VariantB.Op) (c : String)
    (h : mapHas (VariantB.step env s op).browserClients c = true) :
    mapHas s.browserClients c = true ∨ c ∈ VariantB.regTargets [op] "browser" := by
  cases op with
  | close cid now =>
    left
    rw [VariantB.step, handleCloseB_browserClients] at h
    by_cases hc : mapHas s.browserClients cid = true
    · rw [if_pos hc] at h
      exact ((mapHas_mapDelete_iff _ _ _).mp h).1
    · rwa [if_neg hc] at h
  | msg cid ip d now =>
    cases d with
    | none => exact Or.inl h
    | some m =>
      simp only [VariantB.step, VariantB.handleMessage] at h
      by_cases h1 : m.type = "ping"
      · rw [if_pos h1] at h; exact Or.inl h
      rw [if_neg h1] at h
      by_cases h2 : m.type = "pong"
      · rw [if_pos h2] at h; exact Or.inl h
      rw [if_neg h2] at h
      by_cases h3 : m.type = "client-type"
      · rw [if_pos h3] at h
        by_cases h4 : m.client = some "android"
        · rw [if_pos h4] at h; exact Or.inl h
        rw [if_neg h4] at h
        by_cases h5 : m.client = some "browser"
        · rw [if_pos h5] at h
          by_cases h6 : s.androidClients.length > 0
          · rw [if_pos h6] at h
            cases hh : s.androidClients.head? with
            | none =>
              rw [hh] at h
              simp only at h
              rcases (mapHas_mapSet_iff _ _ _ _).mp h with h' | rfl
              · exact Or.inl h'
              · right; simp [VariantB.regTargets, h3, h5]
            | some p =>
              rw [hh] at h
              obtain ⟨aid, a0⟩ := p
              simp only at h
              by_cases h7 : env.isOpen aid = true
              · rw [if_pos h7] at h
                simp only at h
                rcases (mapHas_mapSet_iff _ _ _ _).mp h with h' | rfl
                · exact Or.inl h'
                · right; simp [VariantB.regTargets, h3, h5]
              · rw [if_neg h7] at h
                simp only at h
                rcases (mapHas_mapSet_iff _ _ _ _).mp h with h' | rfl
                · exact Or.inl h'
                · right; simp [VariantB.regTargets, h3, h5]
          · rw [if_neg h6] at h
            simp only at h
            rcases (mapHas_mapSet_iff _ _ _ _).mp h with h' | rfl
            · exact Or.inl h'
            · right; simp [VariantB.regTargets, h3, h5]
        · rw [if_neg h5] at h; exact Or.inl h
      rw [if_neg h3] at h
      by_cases h6 : mapHas s.androidClients cid = true
      · rw [if_pos h6] at h
        left
        cases hg : mapGet? s.androidClients cid with
        | none => rw [hg] at h; simpa using h
        | some a0 => rw [hg] at h; simpa using h
      rw [if_neg h6] at h
      by_cases h7 : mapHas s.browserClients cid = true
      · rw [if_pos h7] at h
        left
        cases hg : mapGet? s.browserClients cid with
        | none => rw [hg] at h; simpa using h
        | some b0 =>
          rw [hg] at h
          simp only at h
          cases hA : m.androidId with
          | none =>
            rw [hA] at h
            simp only at h
            cases hh : s.androidClients.head? with
            | none =>
              rw [hh] at h
              simp only at h
              rcases (mapHas_mapSet_iff _ _ _ _).mp h with h' | rfl
              · exact h'
              · exact h7
            | some p =>
              rw [hh] at h
              obtain ⟨fid, f0⟩ := p
              simp only at h
              by_cases h8 : env.isOpen fid = true
              · rw [if_pos h8] at h
                simp only at h
                rcases (mapHas_mapSet_iff _ _ _ _).mp h with h' | rfl
                · exact h'
                · exact h7
              · rw [if_neg h8] at h
                simp only at h
                rcases (mapHas_mapSet_iff _ _ _ _).mp h with h' | rfl
                · exact h'
                · exact h7
          | some aid =>
            rw [hA] at h
            simp only at h
            by_cases h9 : mapHas s.androidClients aid = true
            · rw [if_pos h9] at h
              by_cases h10 : env.isOpen aid = true
              · rw [if_pos h10] at h
                simp only at h
                rcases (mapHas_mapSet_iff _ _ _ _).mp h with h' | rfl
                · exact h'
                · exact h7
              · rw [if_neg h10] at h
                simp only at h
                rcases (mapHas_mapSet_iff _ _ _ _).mp h with h' | rfl
                · exact h'
                · exact h7
            · rw [if_neg h9] at h
              cases hh : s.androidClients.head? with
              | none =>
                rw [hh] at h
                simp only at h
                rcases (mapHas_mapSet_iff _ _ _ _).mp h with h' | rfl
                · exact h'
                · exact h7
              | some p =>
                rw [hh] at h
                obtain ⟨fid, f0⟩ := p
                simp only at h
                by_cases h8 : env.isOpen fid = true
                · rw [if_pos h8] at h
                  simp only at h
                  rcases (mapHas_mapSet_iff _ _ _ _).mp h with h' | rfl
                  · exact h'
                  · exact h7
                · rw [if_neg h8] at h
                  simp only at h
                  rcases (mapHas_mapSet_iff _ _ _ _).mp h with h' | rfl
                  · exact h'
                  · exact h7
      · rw [if_neg h7] at h; exact Or.inl h

theorem mem_regTargets_iff (ops : List VariantB.Op) (role c : String) :
    c ∈ VariantB.regTargets ops role ↔
      ∃ op ∈ ops, ∃ cid ip m now, op = VariantB.Op.msg cid ip (some m) now ∧
        cid = c ∧ m.type = "client-type" ∧ m.client = some role := by
  simp only [VariantB.regTargets, List.mem_filterMap]
  constructor
  · rintro ⟨op, hop, hf⟩
    refine ⟨op, hop, ?_⟩
    cases op with
    | close cid now => simp at hf
    | msg cid ip d now =>
      cases d with
      | none => simp at hf
      | some m =>
        simp only at hf
        split at hf
        · rename_i hcond
          refine ⟨cid, ip, m, now, rfl, ?_, hcond.1, hcond.2⟩
          simpa using hf
        · simp at hf
  · rintro ⟨op, hop, cid, ip, m, now, rfl, rfl, ht, hc⟩
    refine ⟨_, hop, ?_⟩
    simp [ht, hc]

theorem runB_android_origin (env : Env) (ops : List VariantB.Op) (s : VariantB.StateB)
    (c : String) (h : mapHas (VariantB.run env s ops).androidClients c = true) :
    mapHas s.androidClients c = true ∨ c ∈ VariantB.regTargets ops "android" := by
  induction ops generalizing s with
  | nil => exact Or.inl h
  | cons op rest ih =>
    rcases ih (VariantB.step env s op) h with h' | hmem
    · rcases stepB_android_origin env s op c h' with h'' | hmem
      · exact Or.inl h''
      · right
        rw [mem_regTargets_iff] at hmem ⊢
        obtain ⟨o, ho, rest'⟩ := hmem
        exact ⟨o, by simp at ho ⊢; tauto, rest'⟩
    · right
      rw [mem_regTargets_iff] at hmem ⊢
      obtain ⟨o, ho, rest'⟩ := hmem
      exact ⟨o, by simp [ho], rest'⟩

theorem runB_browser_origin (env : Env) (ops : List VariantB.Op) (s : VariantB.StateB)
    (c : String) (h : mapHas (VariantB.run env s ops).browserClients c = true) :
    mapHas s.browserClients c = true ∨ c ∈ VariantB.regTargets ops "browser" := by
  induction ops generalizing s with
  | nil => exact Or.inl h
  | cons op rest ih =>
    rcases ih (VariantB.step env s op) h with h' | hmem
    · rcases stepB_browser_origin env s op c h' with h'' | hmem
      · exact Or.inl h''
      · right
        rw [mem_regTargets_iff] at hmem ⊢
        obtain ⟨o, ho, rest'⟩ := hmem
        exact ⟨o, by simp at ho ⊢; tauto, rest'⟩
    · right
      rw [mem_regTargets_iff] at hmem ⊢
      obtain ⟨o, ho, rest'⟩ := hmem
      exact ⟨o, by simp [ho], rest'⟩

theorem handleCloseA_androidClient (env : Env) (s : VariantA.StateA) (ws reason : String)
    (now : Nat) :
    (VariantA.handleClose env s ws reason now).1.androidClient =
      if s.androidClient = some ws then none else s.androidClient := by
  simp only [VariantA.handleClose, VariantA.stopPingInterval]
  by_cases hA : s.androidClient = some ws
  · rw [if_pos hA, if_pos hA]
    split <;> rfl
  · rw [if_neg hA, if_neg hA]
    split <;> rfl

theorem handleCloseA_browserClients (env : Env) (s : VariantA.StateA) (ws reason : String)
    (now : Nat) :
    (VariantA.handleClose env s ws reason now).1.browserClients =
      if mapHas s.browserClients ws then mapDelete s.browserClients ws
      else s.browserClients := by
  simp only [VariantA.handleClose, VariantA.stopPingInterval]
  by_cases hA : s.androidClient = some ws
  · rw [if_pos hA]
    split <;> rfl
  · rw [if_neg hA]
    split <;> rfl

theorem stepA_androidClient_origin (env : Env) (s : VariantA.StateA) (op : VariantA.Op)
    (c : String) (h : (VariantA.step env s op).androidClient = some c) :
    s.androidClient = some c ∨ c ∈ VariantA.regTargets [op] "android" := by
  cases op with
  | close ws reason now =>
    left
    rw [VariantA.step, handleCloseA_androidClient] at h
    by_cases hc : s.androidClient = some ws
    · rw [if_pos hc] at h
      cases h
    · rwa [if_neg hc] at h
  | msg ws ip d now =>
    cases d with
    | none => exact Or.inl h
    | some m =>
      simp only [VariantA.step, VariantA.handleMessage] at h
      by_cases h1 : m.type = "ping"
      · rw [if_pos h1] at h; exact Or.inl h
      rw [if_neg h1] at h
      by_cases h2 : m.type = "pong"
      · rw [if_pos h2] at h; exact Or.inl h
      rw [if_neg h2] at h
      by_cases h3 : m.type = "client-type"
      · rw [if_pos h3] at h
        by_cases h4 : m.client = some "android"
        · rw [if_pos h4] at h
          right
          have hws : ws = c := by
            rcases ht : s.androidClient with _ | old
            · simpa [VariantA.startPingInterval, VariantA.stopPingInterval, ht] using h
            · by_cases ho : old = ws <;>
                simpa [VariantA.startPingInterval, VariantA.stopPingInterval, ht, ho] using h
          subst hws
          simp [VariantA.regTargets, h3, h4]
        rw [if_neg h4] at h
        by_cases h5 : m.client = some "browser"
        · rw [if_pos h5] at h
          left
          rcases ht : s.androidClient with _ | a
          · simp [VariantA.startPingInterval, VariantA.stopPingInterval, ht] at h
          · by_cases ho : env.isOpen a = true <;>
              simpa [VariantA.startPingInterval, VariantA.stopPingInterval, ht, ho] using h
        · rw [if_neg h5] at h; exact Or.inl h
      rw [if_neg h3] at h
      by_cases h6 : m.type = "camera-status"
      · rw [if_pos h6] at h; exact Or.inl h
      rw [if_neg h6] at h
      by_cases h7 : m.type = "camera-error"
      · rw [if_pos h7] at h; exact Or.inl h
      rw [if_neg h7] at h
      by_cases h8 : s.androidClient = some ws
      · rw [if_pos h8] at h; exact Or.inl h
      rw [if_neg h8] at h
      by_cases h9 : mapHas s.browserClients ws = true
      · rw [if_pos h9] at h
        left
        rcases ht : s.androidClient with _ | a
        · simp [ht] at h
        · by_cases ho : env.isOpen a = true <;> simpa [ht, ho] using h
      · rw [if_neg h9] at h; exact Or.inl h

theorem stepA_browser_origin (env : Env) (s : VariantA.StateA) (op : VariantA.Op)
    (c : String) (h : mapHas (VariantA.step env s op).browserClients c = true) :
    mapHas s.browserClients c = true ∨ c ∈ VariantA.regTargets [op] "browser" := by
  cases op with
  | close ws reason now =>
    left
    rw [VariantA.step, handleCloseA_browserClients] at h
    by_cases hc : mapHas s.browserClients ws = true
    · rw [if_pos hc] at h
      exact ((mapHas_mapDelete_iff _ _ _).mp h).1
    · rwa [if_neg hc] at h
  | msg ws ip d now =>
    cases d with
    | none => exact Or.inl h
    | some m =>
      simp only [VariantA.step, VariantA.handleMessage] at h
      by_cases h1 : m.type = "ping"
      · rw [if_pos h1] at h; exact Or.inl h
      rw [if_neg h1] at h
      by_cases h2 : m.type = "pong"
      · rw [if_pos h2] at h; exact Or.inl h
      rw [if_neg h2] at h
      by_cases h3 : m.type = "client-type"
      · rw [if_pos h3] at h
        by_cases h4 : m.client = some "android"
        · rw [if_pos h4] at h
          left
          rcases ht : s.androidClient with _ | old
          · simpa [VariantA.startPingInterval, VariantA.stopPingInterval, ht] using h
          · by_cases ho : old = ws <;>
              simpa [VariantA.startPingInterval, VariantA.stopPingInterval, ht, ho] using h
        rw [if_neg h4] at h
        by_cases h5 : m.client = some "browser"
        · rw [if_pos h5] at h
          have hset : mapHas (mapSet s.browserClients ws
              (⟨ws, ip, now⟩ : VariantA.BrowserInfo)) c = true := by
            rcases ht : s.androidClient with _ | a
            · simpa [VariantA.startPingInterval, VariantA.stopPingInterval, ht] using h
            · by_cases ho : env.isOpen a = true <;>
                simpa [VariantA.startPingInterval, VariantA.stopPingInterval, ht, ho] using h
          rcases (mapHas_mapSet_iff _ _ _ _).mp hset with h' | rfl
          · exact Or.inl h'
          · right
            simp [VariantA.regTargets, h3, h5]
        · rw [if_neg h5] at h; exact Or.inl h
      rw [if_neg h3] at h
      by_cases h6 : m.type = "camera-status"
      · rw [if_pos h6] at h; exact Or.inl h
      rw [if_neg h6] at h
      by_cases h7 : m.type = "camera-error"
      · rw [if_pos h7] at h; exact Or.inl h
      rw [if_neg h7] at h
      by_cases h8 : s.androidClient = some ws
      · rw [if_pos h8] at h; exact Or.inl h
      rw [if_neg h8] at h
      by_cases h9 : mapHas s.browserClients ws = true
      · rw [if_pos h9] at h
        left
        rcases ht : s.androidClient with _ | a
        · simpa [ht] using h
        · by_cases ho : env.isOpen a = true <;> simpa [ht, ho] using h
      · rw [if_neg h9] at h; exact Or.inl h

theorem mem_regTargetsA_iff (ops : List VariantA.Op) (role c : String) :
    c ∈ VariantA.regTargets ops role ↔
      ∃ op ∈ ops, ∃ ws ip m now, op = VariantA.Op.msg ws ip (some m) now ∧
        ws = c ∧ m.type = "client-type" ∧ m.client = some role := by
  simp only [VariantA.regTargets, List.mem_filterMap]
  constructor
  · rintro ⟨op, hop, hf⟩
    refine ⟨op, hop, ?_⟩
    cases op with
    | close ws reason now => simp at hf
    | msg ws ip d now =>
      cases d with
      | none => simp at hf
      | some m =>
        simp only at hf
        split at hf
        · rename_i hcond
          refine ⟨ws, ip, m, now, rfl, ?_, hcond.1, hcond.2⟩
          simpa using hf
        · simp at hf
  · rintro ⟨op, hop, ws, ip, m, now, rfl, rfl, ht, hc⟩
    refine ⟨_, hop, ?_⟩
    simp [ht, hc]

theorem runA_androidClient_origin (env : Env) (ops : List VariantA.Op) (s : VariantA.StateA)
    (c : String) (h : (VariantA.run env s ops).androidClient = some c) :
    s.androidClient = some c ∨ c ∈ VariantA.regTargets ops "android" := by
  induction ops generalizing s with
  | nil => exact Or.inl h
  | cons op rest ih =>
    rcases ih (VariantA.step env s op) h with h' | hmem
    · rcases stepA_androidClient_origin env s op c h' with h'' | hmem
      · exact Or.inl h''
      · right
        rw [mem_regTargetsA_iff] at hmem ⊢
        obtain ⟨o, ho, rest'⟩ := hmem
        exact ⟨o, by simp at ho ⊢; tauto, rest'⟩
    · right
      rw [mem_regTargetsA_iff] at hmem ⊢
      obtain ⟨o, ho, rest'⟩ := hmem
      exact ⟨o, by simp [ho], rest'⟩

theorem runA_browser_origin (env : Env) (ops : List VariantA.Op) (s : VariantA.StateA)
    (c : String) (h : mapHas (VariantA.run env s ops).browserClients c = true) :
    mapHas s.browserClients c = true ∨ c ∈ VariantA.regTargets ops "browser" := by
  induction ops generalizing s with
  | nil => exact Or.inl h
  | cons op rest ih =>
    rcases ih (VariantA.step env s op) h with h' | hmem
    · rcases stepA_browser_origin env s op c h' with h'' | hmem
      · exact Or.inl h''
      · right
        rw [mem_regTargetsA_iff] at hmem ⊢
        obtain ⟨o, ho, rest'⟩ := hmem
        exact ⟨o, by simp at ho ⊢; tauto, rest'⟩
    · right
      rw [mem_regTargetsA_iff] at hmem ⊢
      obtain ⟨o, ho, rest'⟩ := hmem
      exact ⟨o, by simp [ho], rest'⟩

/-- C1 (amended): in both variants, starting from the empty registry, as
long as no single connection id sends `client-type` envelopes with both
`client` values ("android" and "browser"), no connection identity is
ever present in both the Source and the Viewer collection — in variant A
the Source collection is the exclusive `androidClient` slot, in variant
B the `androidClients` Map.  (The unrestricted claim is false: neither
variant's `client-type` branches remove the sender from the opposite
collection, see the counterexample.) -/
theorem claim1_roles_disjoint (env : Env)
    (opsA : List VariantA.Op) (opsB : List VariantB.Op) (c : String)
    (hsepA : ∀ x ∈ VariantA.regTargets opsA "android", x ∉ VariantA.regTargets opsA "browser")
    (hsepB : ∀ x ∈ VariantB.regTargets opsB "android", x ∉ VariantB.regTargets opsB "browser") :
    ¬((VariantA.run env ⟨none, [], [], []⟩ opsA).androidClient = some c ∧
      mapHas (VariantA.run env ⟨none, [], [], []⟩ opsA).browserClients c = true) ∧
    ¬(mapHas (VariantB.run env ⟨[], []⟩ opsB).androidClients c = true ∧
      mapHas (VariantB.run env ⟨[], []⟩ opsB).browserClients c = true) := by
  constructor
  · rintro ⟨ha, hb⟩
    rcases runA_androidClient_origin env opsA ⟨none, [], [], []⟩ c ha with h | ha'
    · cases h
    rcases runA_browser_origin env opsA ⟨none, [], [], []⟩ c hb with h | hb'
    · simp [mapHas] at h
    exact hsepA c ha' hb'
  · rintro ⟨ha, hb⟩
    rcases runB_android_origin env opsB ⟨[], []⟩ c ha with h | ha'
    · simp [mapHas] at h
    rcases runB_browser_origin env opsB ⟨[], []⟩ c hb with h | hb'
    · simp [mapHas] at h
    exact hsepB c ha' hb'

/-- Witness for C1's theorem on concrete register/evict sequences in
both variants. -/
theorem claim1_roles_disjoint_witness :
    ((∀ x ∈ VariantA.regTargets
        [VariantA.Op.msg "a" "ip" (some (clientTypeMsg "android")) 1,
         VariantA.Op.msg "b" "ip" (some (clientTypeMsg "browser")) 2,
         VariantA.Op.close "a" "bye" 3] "android",
       x ∉ VariantA.regTargets
        [VariantA.Op.msg "a" "ip" (some (clientTypeMsg "android")) 1,
         VariantA.Op.msg "b" "ip" (some (clientTypeMsg "browser")) 2,
         VariantA.Op.close "a" "bye" 3] "browser") ∧
     (∀ x ∈ VariantB.regTargets
        [VariantB.Op.msg "a" "ip" (some (clientTypeMsg "android")) 1,
         VariantB.Op.msg "b" "ip" (some (clientTypeMsg "browser")) 2,
         VariantB.Op.close "a" 3] "android",
       x ∉ VariantB.regTargets
        [VariantB.Op.msg "a" "ip" (some (clientTypeMsg "android")) 1,
         VariantB.Op.msg "b" "ip" (some (clientTypeMsg "browser")) 2,
         VariantB.Op.close "a" 3] "browser")) ∧
    (¬((VariantA.run env0 ⟨none, [], [], []⟩
        [VariantA.Op.msg "a" "ip" (some (clientTypeMsg "android")) 1,
         VariantA.Op.msg "b" "ip" (some (clientTypeMsg "browser")) 2,
         VariantA.Op.close "a" "bye" 3]).androidClient = some "b" ∧
       mapHas (VariantA.run env0 ⟨none, [], [], []⟩
        [VariantA.Op.msg "a" "ip" (some (clientTypeMsg "android")) 1,
         VariantA.Op.msg "b" "ip" (some (clientTypeMsg "browser")) 2,
         VariantA.Op.close "a" "bye" 3]).browserClients "b" = true) ∧
     ¬(mapHas (VariantB.run env0 ⟨[], []⟩
        [VariantB.Op.msg "a" "ip" (some (clientTypeMsg "android")) 1,
         VariantB.Op.msg "b" "ip" (some (clientTypeMsg "browser")) 2,
         VariantB.Op.close "a" 3]).androidClients "b" = true ∧
       mapHas (VariantB.run env0 ⟨[], []⟩
        [VariantB.Op.msg "a" "ip" (some (clientTypeMsg "android")) 1,
         VariantB.Op.msg "b" "ip" (some (clientTypeMsg "browser")) 2,
         VariantB.Op.close "a" 3]).browserClients "b" = true)) :=
  ⟨⟨by decide, by decide⟩,
   claim1_roles_disjoint env0
     [VariantA.Op.msg "a" "ip" (some (clientTypeMsg "android")) 1,
      VariantA.Op.msg "b" "ip" (some (clientTypeMsg "browser")) 2,
      VariantA.Op.close "a" "bye" 3]
     [VariantB.Op.msg "a" "ip" (some (clientTypeMsg "android")) 1,
      VariantB.Op.msg "b" "ip" (some (clientTypeMsg "browser")) 2,
      VariantB.Op.close "a" 3] "b" (by decide) (by decide)⟩

/-- C1 counterexample: in both variants, one connection that sends
`client-type: android` and then `client-type: browser` ends up in both
collections at once — in variant A it stays `androidClient` while
joining `browserClients`, and in variant B it lands in both Maps; no
registration branch evicts the sender from the opposite collection. -/
theorem claim1_counterexample :
    ((VariantA.run env0 ⟨none, [], [], []⟩
      [VariantA.Op.msg "c" "ip" (some (clientTypeMsg "android")) 1,
       VariantA.Op.msg "c" "ip" (some (clientTypeMsg "browser")) 2]).androidClient = some "c" ∧
     mapHas (VariantA.run env0 ⟨none, [], [], []⟩
      [VariantA.Op.msg "c" "ip" (some (clientTypeMsg "android")) 1,
       VariantA.Op.msg "c" "ip" (some (clientTypeMsg "browser")) 2]).browserClients "c" = true) ∧
    (mapHas (VariantB.run env0 ⟨[], []⟩
      [VariantB.Op.msg "c" "ip" (some (clientTypeMsg "android")) 1,
       VariantB.Op.msg "c" "ip" (some (clientTypeMsg "browser")) 2]).androidClients "c" = true ∧
     mapHas (VariantB.run env0 ⟨[], []⟩
      [VariantB.Op.msg "c" "ip" (some (clientTypeMsg "android")) 1,
       VariantB.Op.msg "c" "ip" (some (clientTypeMsg "browser")) 2]).browserClients "c" = true) := by
  decide

/-- C4 (amended): every inbound `ping` yields exactly one `pong` reply to
the sender, carrying the server clock in both `timestamp` and
`serverTime` (no echo of the inbound envelope's timestamp).  There is no
broadcast, no unicast to others, and no registry-membership change; in
variant A the sender's activity timestamp is refreshed, in variant B
nothing in the registry changes at all. -/
theorem claim4_ping_reply (env : Env) (sa : VariantA.StateA) (sb : VariantB.StateB)
    (ws ip : String) (m : Msg) (now : Nat) (hm : m.type = "ping") :
    VariantA.handleMessage env sa ws ip (some m) now =
      ({ sa with connectionTimestamps := mapSet sa.connectionTimestamps ws now },
       [Effect.sent ws (pongMsg now)]) ∧
    VariantB.handleMessage env sb ws ip (some m) now = (sb, [Effect.sent ws (pongMsg now)]) := by
  constructor
  · simp [VariantA.handleMessage, hm]
  · simp [VariantB.handleMessage, hm]

/-- Witness for C4's theorem at a concrete ping. -/
theorem claim4_ping_reply_witness :
    ({ type := "ping", timestamp := some 42 } : Msg).type = "ping" ∧
    (VariantA.handleMessage env0 {} "u" "ip" (some { type := "ping", timestamp := some 42 }) 1000 =
      ({ connectionTimestamps := mapSet ([] : List (String × Nat)) "u" 1000 },
       [Effect.sent "u" (pongMsg 1000)]) ∧
     VariantB.handleMessage env0 {} "u" "ip" (some { type := "ping", timestamp := some 42 }) 1000 =
      ({}, [Effect.sent "u" (pongMsg 1000)])) :=
  ⟨rfl, claim4_ping_reply env0 {} {} "u" "ip" { type := "ping", timestamp := some 42 } 1000 rfl⟩

/-- C4 counterexample: the pong reply does not echo the inbound
envelope's timestamp.  For a ping carrying `timestamp = 42` processed at
server time 1000, the single reply carries `timestamp = 1000` and
`serverTime = 1000`; the value 42 appears in neither field. -/
theorem claim4_counterexample :
    (VariantA.handleMessage env0 {} "u" "ip" (some { type := "ping", timestamp := some 42 }) 1000).2 =
      [Effect.sent "u" (pongMsg 1000)] ∧
    (pongMsg 1000).timestamp ≠ some 42 ∧ (pongMsg 1000).serverTime ≠ some 42 := by
  decide

/-- C9 (amended): a transport frame that fails JSON decoding leaves the
connection's role and registry membership unchanged and is reported as a
local error; variant A additionally replies to the sender with an
`error` envelope ("Invalid message format") — but variant A refreshes
the sender's activity timestamp before decoding, so `lastSeen` does
change there; variant B changes nothing and sends no reply. -/
theorem claim9_malformed_frame (env : Env) (sa : VariantA.StateA) (sb : VariantB.StateB)
    (ws ip : String) (now : Nat) :
    VariantA.handleMessage env sa ws ip none now =
      ({ sa with connectionTimestamps := mapSet sa.connectionTimestamps ws now },
       [Effect.logError "Parse error", Effect.sent ws (VariantA.invalidFormatMsg now)]) ∧
    VariantB.handleMessage env sb ws ip none now = (sb, [Effect.logError "Parse error"]) := by
  constructor <;> rfl

/-- C9 counterexample: a malformed frame does change registry state in
variant A — the sender's `connectionTimestamps` entry is overwritten
with the current clock before the parse error is raised. -/
theorem claim9_counterexample :
    (VariantA.handleMessage env0 { connectionTimestamps := [("u", 0)] } "u" "ip" none 99).1.connectionTimestamps
      ≠ [("u", 0)] := by
  decide

/-- C10: in the exclusive variant A, after a new connection replaces a
registered Source, processing the replaced connection's close event
neither clears the new Source slot nor broadcasts any
`android-disconnected` notification (the close handler's Source branch
is guarded by identity with the current `androidClient`). -/
theorem claim10_replacement_close_safe (env : Env) (s : VariantA.StateA)
    (oldWs newWs ip reason : String) (n1 n2 : Nat)
    (hold : s.androidClient = some oldWs) (hne : oldWs ≠ newWs) :
    ((VariantA.handleMessage env s newWs ip (some (clientTypeMsg "android")) n1).1.androidClient
      = some newWs) ∧
    ((VariantA.handleClose env
        ((VariantA.handleMessage env s newWs ip (some (clientTypeMsg "android")) n1).1)
        oldWs reason n2).1.androidClient = some newWs) ∧
    (VariantA.handleClose env
        ((VariantA.handleMessage env s newWs ip (some (clientTypeMsg "android")) n1).1)
        oldWs reason n2).2 = [] := by
  have h1 : (VariantA.handleMessage env s newWs ip (some (clientTypeMsg "android")) n1).1.androidClient
      = some newWs := by
    simp [VariantA.handleMessage, clientTypeMsg, hold, hne.symm,
      VariantA.startPingInterval, VariantA.stopPingInterval]
  refine ⟨h1, ?_, ?_⟩ <;>
    simp [VariantA.handleClose, VariantA.stopPingInterval, h1, hne, Ne.symm hne, apply_ite]

/-- Witness for C10's theorem at a concrete replacement. -/
theorem claim10_replacement_close_safe_witness :
    (({ androidClient := some "o" } : VariantA.StateA).androidClient = some "o" ∧ "o" ≠ "n") ∧
    (((VariantA.handleMessage env0 { androidClient := some "o" } "n" "ip"
        (some (clientTypeMsg "android")) 1).1.androidClient = some "n") ∧
     ((VariantA.handleClose env0
        ((VariantA.handleMessage env0 { androidClient := some "o" } "n" "ip"
          (some (clientTypeMsg "android")) 1).1) "o" "bye" 2).1.androidClient = some "n") ∧
     (VariantA.handleClose env0
        ((VariantA.handleMessage env0 { androidClient := some "o" } "n" "ip"
          (some (clientTypeMsg "android")) 1).1) "o" "bye" 2).2 = []) :=
  ⟨⟨rfl, by decide⟩,
   claim10_replacement_close_safe env0 { androidClient := some "o" } "o" "n" "ip" "bye" 1 2
     rfl (by decide)⟩

/-- C7: `firstSource` (the `androidClients.values().next().value`
selection) is a pure function of the registry and returns the earliest
still-registered Source in Map insertion order: registering three
distinct Sources a, b, c in that order and then evicting a leaves b as
the selected Source. -/
theorem claim7_firstSource_insertion_order (env : Env) (s : VariantB.StateB)
    (a b c ipa ipb ipc : String) (n1 n2 n3 n4 : Nat)
    (h0 : s.androidClients = [])
    (hab : a ≠ b) (hac : a ≠ c) (hbc : b ≠ c) :
    (VariantB.firstSource
      (VariantB.cleanupAndroidClient env
        ((VariantB.handleMessage env
          ((VariantB.handleMessage env
            ((VariantB.handleMessage env s a ipa (some (clientTypeMsg "android")) n1).1)
            b ipb (some (clientTypeMsg "android")) n2).1)
          c ipc (some (clientTypeMsg "android")) n3).1)
        a n4).1).map Prod.fst = some b := by
  have e1 : (VariantB.handleMessage env s a ipa (some (clientTypeMsg "android")) n1).1 =
      { s with androidClients := [(a, ⟨n1, ipa⟩)] } := by
    simp [VariantB.handleMessage, clientTypeMsg, mapSet, mapHas, h0]
  rw [e1]
  have e2 : (VariantB.handleMessage env { s with androidClients := [(a, ⟨n1, ipa⟩)] }
      b ipb (some (clientTypeMsg "android")) n2).1 =
      { s with androidClients := [(a, ⟨n1, ipa⟩), (b, ⟨n2, ipb⟩)] } := by
    simp [VariantB.handleMessage, clientTypeMsg, mapSet, mapHas, hab]
  rw [e2]
  have e3 : (VariantB.handleMessage env
      { s with androidClients := [(a, ⟨n1, ipa⟩), (b, ⟨n2, ipb⟩)] }
      c ipc (some (clientTypeMsg "android")) n3).1 =
      { s with androidClients := [(a, ⟨n1, ipa⟩), (b, ⟨n2, ipb⟩), (c, ⟨n3, ipc⟩)] } := by
    simp [VariantB.handleMessage, clientTypeMsg, mapSet, mapHas, hac, hbc]
  rw [e3]
  have e4 : (VariantB.cleanupAndroidClient env
      { s with androidClients := [(a, ⟨n1, ipa⟩), (b, ⟨n2, ipb⟩), (c, ⟨n3, ipc⟩)] } a n4).1 =
      { s with androidClients := [(b, ⟨n2, ipb⟩), (c, ⟨n3, ipc⟩)] } := by
    simp [VariantB.cleanupAndroidClient, mapDelete, Ne.symm hab, Ne.symm hac]
  rw [e4]
  simp [VariantB.firstSource]

/-- Witness for C7's theorem at concrete Sources "a", "b", "c". -/
theorem claim7_firstSource_insertion_order_witness :
    ((⟨[], []⟩ : VariantB.StateB).androidClients = [] ∧
     "a" ≠ "b" ∧ "a" ≠ "c" ∧ "b" ≠ "c") ∧
    (VariantB.firstSource
      (VariantB.cleanupAndroidClient env0
        ((VariantB.handleMessage env0
          ((VariantB.handleMessage env0
            ((VariantB.handleMessage env0 ⟨[], []⟩ "a" "ip" (some (clientTypeMsg "android")) 1).1)
            "b" "ip" (some (clientTypeMsg "android")) 2).1)
          "c" "ip" (some (clientTypeMsg "android")) 3).1)
        "a" 4).1).map Prod.fst = some "b" :=
  ⟨⟨rfl, by decide, by decide, by decide⟩,
   claim7_firstSource_insertion_order env0 ⟨[], []⟩ "a" "b" "c" "ip" "ip" "ip" 1 2 3 4
     rfl (by decide) (by decide) (by decide)⟩

/-- C3 (amended): a Viewer registering while zero Sources are registered
triggers no `request-offer` send in either variant; variant A replies to
the Viewer with an `android-status: disconnected` envelope, but variant
B sends the Viewer no reply at all. -/
theorem claim3_viewer_registration_no_source (env : Env) (sa : VariantA.StateA)
    (sb : VariantB.StateB) (ws ip : String) (m : Msg) (now : Nat)
    (hm : m.type = "client-type") (hc : m.client = some "browser")
    (hA : sa.androidClient = none) (hB : sb.androidClients = []) :
    (VariantA.handleMessage env sa ws ip (some m) now).2 =
      [Effect.sent ws { type := "android-status", status := some "disconnected",
                        timestamp := some now }] ∧
    (VariantB.handleMessage env sb ws ip (some m) now).2 = [] := by
  constructor
  · simp [VariantA.handleMessage, hm, hc, hA,
      VariantA.startPingInterval, VariantA.stopPingInterval]
  · simp [VariantB.handleMessage, hm, hc, hB]

/-- Witness for C3's theorem at a concrete registration. -/
theorem claim3_viewer_registration_no_source_witness :
    ((clientTypeMsg "browser").type = "client-type" ∧
     (clientTypeMsg "browser").client = some "browser" ∧
     ({} : VariantA.StateA).androidClient = none ∧
     ({} : VariantB.StateB).androidClients = []) ∧
    ((VariantA.handleMessage env0 {} "b" "ip" (some (clientTypeMsg "browser")) 3).2 =
      [Effect.sent "b" { type := "android-status", status := some "disconnected",
                         timestamp := some 3 }] ∧
     (VariantB.handleMessage env0 {} "b" "ip" (some (clientTypeMsg "browser")) 3).2 = []) :=
  ⟨⟨rfl, rfl, rfl, rfl⟩,
   claim3_viewer_registration_no_source env0 {} {} "b" "ip" (clientTypeMsg "browser") 3
     rfl rfl rfl rfl⟩

theorem failedCount_append (xs ys : List Effect) :
    failedCount (xs ++ ys) = failedCount xs + failedCount ys := by
  simp [failedCount, List.filter_append]

theorem failedCount_cons_sendFailed (b : String) (ys : List Effect) :
    failedCount (Effect.sendFailed b :: ys) = failedCount ys + 1 := by
  simp [failedCount, List.filter_cons]

theorem failedCount_map_sent {α : Type} (xs : List (String × α)) (m : Msg) :
    failedCount (xs.map fun p => Effect.sent p.1 m) = 0 := by
  induction xs with
  | nil => rfl
  | cons p rest ih => simpa [failedCount, List.filter_cons] using ih

theorem broadcastA_all_ok (env : Env) (browsers : List (String × VariantA.BrowserInfo)) (m : Msg)
    (h : ∀ p ∈ browsers, env.isOpen p.1 = true ∧ env.sendOk p.1 = true) :
    VariantA.broadcastToBrowsers env browsers m =
      ⟨browsers.map fun p => Effect.sent p.1 m, browsers.length, 0⟩ := by
  induction browsers with
  | nil => rfl
  | cons p rest ih =>
    have hp := h p (by simp)
    have hr := ih fun q hq => h q (by simp [hq])
    simp [VariantA.broadcastToBrowsers, hp.1, hp.2, hr]

theorem broadcastA_one_bad (env : Env) (pre post : List (String × VariantA.BrowserInfo))
    (bad : String) (info : VariantA.BrowserInfo) (m : Msg)
    (hpre : ∀ p ∈ pre, env.isOpen p.1 = true ∧ env.sendOk p.1 = true)
    (hpost : ∀ p ∈ post, env.isOpen p.1 = true ∧ env.sendOk p.1 = true)
    (hbo : env.isOpen bad = true) (hbs : env.sendOk bad = false) :
    VariantA.broadcastToBrowsers env (pre ++ (bad, info) :: post) m =
      ⟨(pre.map fun p => Effect.sent p.1 m) ++
        Effect.sendFailed bad :: (post.map fun p => Effect.sent p.1 m),
       pre.length + post.length, 1⟩ := by
  induction pre with
  | nil =>
    simp only [List.nil_append]
    rw [VariantA.broadcastToBrowsers, broadcastA_all_ok env post m hpost]
    simp [hbo, hbs]
  | cons p rest ih =>
    have hp := hpre p (by simp)
    have hr := ih fun q hq => hpre q (by simp [hq])
    simp [VariantA.broadcastToBrowsers, hp.1, hp.2, hr]
    omega

theorem broadcastB_all_ok (env : Env) (browsers : List (String × VariantB.BrowserClient)) (m : Msg)
    (h : ∀ p ∈ browsers, env.isOpen p.1 = true ∧ env.sendOk p.1 = true) :
    VariantB.broadcastToBrowsers env browsers m =
      ⟨browsers.map fun p => Effect.sent p.1 m, browsers.length⟩ := by
  induction browsers with
  | nil => rfl
  | cons p rest ih =>
    have hp := h p (by simp)
    have hr := ih fun q hq => h q (by simp [hq])
    simp [VariantB.broadcastToBrowsers, hp.1, hp.2, hr]

theorem broadcastB_one_bad (env : Env) (pre post : List (String × VariantB.BrowserClient))
    (bad : String) (info : VariantB.BrowserClient) (m : Msg)
    (hpre : ∀ p ∈ pre, env.isOpen p.1 = true ∧ env.sendOk p.1 = true)
    (hpost : ∀ p ∈ post, env.isOpen p.1 = true ∧ env.sendOk p.1 = true)
    (hbo : env.isOpen bad = true) (hbs : env.sendOk bad = false) :
    VariantB.broadcastToBrowsers env (pre ++ (bad, info) :: post) m =
      ⟨(pre.map fun p => Effect.sent p.1 m) ++
        Effect.sendFailed bad :: (post.map fun p => Effect.sent p.1 m),
       pre.length + post.length⟩ := by
  induction pre with
  | nil =>
    simp only [List.nil_append]
    rw [VariantB.broadcastToBrowsers, broadcastB_all_ok env post m hpost]
    simp [hbo, hbs]
  | cons p rest ih =>
    have hp := hpre p (by simp)
    have hr := ih fun q hq => hpre q (by simp [hq])
    simp [VariantB.broadcastToBrowsers, hp.1, hp.2, hr]
    omega

/-- C6: broadcasting to N Viewers of which exactly one socket closes
mid-broadcast (its readiness check still passes but the send throws)
delivers the envelope to the remaining N−1 Viewers and reports exactly
one failure: variant A counts it in `errorCount`, and in variant B the
failure surfaces as exactly one caught-and-logged send error.  Failures
are isolated per recipient: every other open Viewer still receives the
envelope. -/
theorem claim6_broadcast_isolation (env : Env) (m : Msg)
    (preA postA : List (String × VariantA.BrowserInfo))
    (preB postB : List (String × VariantB.BrowserClient))
    (bad : String) (infoA : VariantA.BrowserInfo) (infoB : VariantB.BrowserClient)
    (hpreA : ∀ p ∈ preA, env.isOpen p.1 = true ∧ env.sendOk p.1 = true)
    (hpostA : ∀ p ∈ postA, env.isOpen p.1 = true ∧ env.sendOk p.1 = true)
    (hpreB : ∀ p ∈ preB, env.isOpen p.1 = true ∧ env.sendOk p.1 = true)
    (hpostB : ∀ p ∈ postB, env.isOpen p.1 = true ∧ env.sendOk p.1 = true)
    (hbo : env.isOpen bad = true) (hbs : env.sendOk bad = false) :
    (VariantA.broadcastToBrowsers env (preA ++ (bad, infoA) :: postA) m).successCount
        = preA.length + postA.length ∧
    (VariantA.broadcastToBrowsers env (preA ++ (bad, infoA) :: postA) m).errorCount = 1 ∧
    (∀ p ∈ preA ++ postA,
      Effect.sent p.1 m ∈ (VariantA.broadcastToBrowsers env (preA ++ (bad, infoA) :: postA) m).effects) ∧
    (VariantB.broadcastToBrowsers env (preB ++ (bad, infoB) :: postB) m).successCount
        = preB.length + postB.length ∧
    failedCount (VariantB.broadcastToBrowsers env (preB ++ (bad, infoB) :: postB) m).effects = 1 ∧
    (∀ p ∈ preB ++ postB,
      Effect.sent p.1 m ∈ (VariantB.broadcastToBrowsers env (preB ++ (bad, infoB) :: postB) m).effects) := by
  rw [broadcastA_one_bad env preA postA bad infoA m hpreA hpostA hbo hbs,
    broadcastB_one_bad env preB postB bad infoB m hpreB hpostB hbo hbs]
  refine ⟨rfl, rfl, ?_, rfl, ?_, ?_⟩
  · intro p hp
    simp only [List.mem_append, List.mem_cons, List.mem_map]
    rcases List.mem_append.mp hp with h | h
    · exact Or.inl ⟨p, h, rfl⟩
    · exact Or.inr (Or.inr ⟨p, h, rfl⟩)
  · rw [failedCount_append, failedCount_cons_sendFailed, failedCount_map_sent,
      failedCount_map_sent]
  · intro p hp
    simp only [List.mem_append, List.mem_cons, List.mem_map]
    rcases List.mem_append.mp hp with h | h
    · exact Or.inl ⟨p, h, rfl⟩
    · exact Or.inr (Or.inr ⟨p, h, rfl⟩)

/-- Witness for C6's theorem: three Viewers b1, b2, b3 of which b2's
socket throws on send. -/
theorem claim6_broadcast_isolation_witness :
    ((∀ p ∈ [("b1", (⟨"b1", "ip", 0⟩ : VariantA.BrowserInfo))],
        (⟨fun _ => true, fun x => x != "b2"⟩ : Env).isOpen p.1 = true ∧
        (⟨fun _ => true, fun x => x != "b2"⟩ : Env).sendOk p.1 = true) ∧
     (∀ p ∈ [("b3", (⟨"b3", "ip", 0⟩ : VariantA.BrowserInfo))],
        (⟨fun _ => true, fun x => x != "b2"⟩ : Env).isOpen p.1 = true ∧
        (⟨fun _ => true, fun x => x != "b2"⟩ : Env).sendOk p.1 = true) ∧
     (⟨fun _ => true, fun x => x != "b2"⟩ : Env).isOpen "b2" = true ∧
     (⟨fun _ => true, fun x => x != "b2"⟩ : Env).sendOk "b2" = false) ∧
    ((VariantA.broadcastToBrowsers ⟨fun _ => true, fun x => x != "b2"⟩
        ([("b1", ⟨"b1", "ip", 0⟩)] ++ ("b2", ⟨"b2", "ip", 0⟩) :: [("b3", ⟨"b3", "ip", 0⟩)])
        { type := "offer" }).successCount =
      [("b1", (⟨"b1", "ip", 0⟩ : VariantA.BrowserInfo))].length +
        [("b3", (⟨"b3", "ip", 0⟩ : VariantA.BrowserInfo))].length ∧
     (VariantA.broadcastToBrowsers ⟨fun _ => true, fun x => x != "b2"⟩
        ([("b1", ⟨"b1", "ip", 0⟩)] ++ ("b2", ⟨"b2", "ip", 0⟩) :: [("b3", ⟨"b3", "ip", 0⟩)])
        { type := "offer" }).errorCount = 1 ∧
     (∀ p ∈ [("b1", (⟨"b1", "ip", 0⟩ : VariantA.BrowserInfo))] ++
          [("b3", (⟨"b3", "ip", 0⟩ : VariantA.BrowserInfo))],
       Effect.sent p.1 { type := "offer" } ∈
         (VariantA.broadcastToBrowsers ⟨fun _ => true, fun x => x != "b2"⟩
           ([("b1", ⟨"b1", "ip", 0⟩)] ++ ("b2", ⟨"b2", "ip", 0⟩) :: [("b3", ⟨"b3", "ip", 0⟩)])
           { type := "offer" }).effects) ∧
     (VariantB.broadcastToBrowsers ⟨fun _ => true, fun x => x != "b2"⟩
        ([("b1", ⟨"b1", 0⟩)] ++ ("b2", ⟨"b2", 0⟩) :: [("b3", ⟨"b3", 0⟩)])
        { type := "offer" }).successCount =
      [("b1", (⟨"b1", 0⟩ : VariantB.BrowserClient))].length +
        [("b3", (⟨"b3", 0⟩ : VariantB.BrowserClient))].length ∧
     failedCount (VariantB.broadcastToBrowsers ⟨fun _ => true, fun x => x != "b2"⟩
        ([("b1", ⟨"b1", 0⟩)] ++ ("b2", ⟨"b2", 0⟩) :: [("b3", ⟨"b3", 0⟩)])
        { type := "offer" }).effects = 1 ∧
     (∀ p ∈ [("b1", (⟨"b1", 0⟩ : VariantB.BrowserClient))] ++
          [("b3", (⟨"b3", 0⟩ : VariantB.BrowserClient))],
       Effect.sent p.1 { type := "offer" } ∈
         (VariantB.broadcastToBrowsers ⟨fun _ => true, fun x => x != "b2"⟩
           ([("b1", ⟨"b1", 0⟩)] ++ ("b2", ⟨"b2", 0⟩) :: [("b3", ⟨"b3", 0⟩)])
           { type := "offer" }).effects)) :=
  ⟨⟨by decide, by decide, by decide, by decide⟩,
   claim6_broadcast_isolation ⟨fun _ => true, fun x => x != "b2"⟩ { type := "offer" }
     [("b1", ⟨"b1", "ip", 0⟩)] [("b3", ⟨"b3", "ip", 0⟩)]
     [("b1", ⟨"b1", 0⟩)] [("b3", ⟨"b3", 0⟩)]
     "b2" ⟨"b2", "ip", 0⟩ ⟨"b2", 0⟩
     (by decide) (by decide) (by decide) (by decide) (by decide) (by decide)⟩

/-- C3 counterexample: in variant B a Viewer that registers while zero
Sources are registered receives no reply whatsoever — in particular no
`source-status: disconnected` envelope (the registration branch has no
else-arm for the empty-Source case). -/
theorem claim3_counterexample :
    (VariantB.handleMessage env0 {} "b" "ip" (some (clientTypeMsg "browser")) 3).2 = [] := by
  decide

/-- C8 (amended): an envelope from a still-Unidentified connection whose
type is none of `ping`/`pong`/`client-type` and also none of
`camera-status`/`camera-error` is dropped silently: no reply, no
broadcast, no unicast, registry membership unchanged (variant A still
refreshes the sender's activity timestamp), and the connection can still
identify later.  The exclusion of the camera types is forced: variant A
broadcasts `camera-status`/`camera-error` envelopes to all Viewers
regardless of the sender's identity (see the counterexample). -/
theorem claim8_unidentified_dropped (env : Env) (sa : VariantA.StateA) (sb : VariantB.StateB)
    (ws ip : String) (m : Msg) (now now2 : Nat)
    (h1 : m.type ≠ "ping") (h2 : m.type ≠ "pong") (h3 : m.type ≠ "client-type")
    (h4 : m.type ≠ "camera-status") (h5 : m.type ≠ "camera-error")
    (hA1 : sa.androidClient ≠ some ws) (hA2 : mapHas sa.browserClients ws = false)
    (hB1 : mapHas sb.androidClients ws = false) (hB2 : mapHas sb.browserClients ws = false) :
    VariantA.handleMessage env sa ws ip (some m) now =
      ({ sa with connectionTimestamps := mapSet sa.connectionTimestamps ws now }, []) ∧
    VariantB.handleMessage env sb ws ip (some m) now = (sb, []) ∧
    mapHas ((VariantA.handleMessage env
        ((VariantA.handleMessage env sa ws ip (some m) now).1) ws ip
        (some (clientTypeMsg "browser")) now2).1).browserClients ws = true ∧
    mapHas ((VariantB.handleMessage env sb ws ip
        (some (clientTypeMsg "android")) now2).1).androidClients ws = true := by
  have hA : VariantA.handleMessage env sa ws ip (some m) now =
      ({ sa with connectionTimestamps := mapSet sa.connectionTimestamps ws now }, []) := by
    simp [VariantA.handleMessage, h1, h2, h3, h4, h5, hA1, hA2]
  have hbrowser : ∀ t : VariantA.StateA,
      (VariantA.handleMessage env t ws ip (some (clientTypeMsg "browser")) now2).1.browserClients =
        mapSet t.browserClients ws ⟨ws, ip, now2⟩ := by
    intro t
    rcases ht : t.androidClient with _ | a
    · simp [VariantA.handleMessage, clientTypeMsg, VariantA.startPingInterval,
        VariantA.stopPingInterval, ht]
    · by_cases ho : env.isOpen a = true <;>
        simp [VariantA.handleMessage, clientTypeMsg, VariantA.startPingInterval,
          VariantA.stopPingInterval, ht, ho]
  refine ⟨hA, ?_, ?_, ?_⟩
  · simp [VariantB.handleMessage, h1, h2, h3, hB1, hB2]
  · rw [hbrowser]
    exact (mapHas_mapSet_iff _ _ _ _).mpr (Or.inr rfl)
  · have hreg : (VariantB.handleMessage env sb ws ip
        (some (clientTypeMsg "android")) now2).1.androidClients =
        mapSet sb.androidClients ws ⟨now2, ip⟩ := by
      simp [VariantB.handleMessage, clientTypeMsg]
    rw [hreg]
    exact (mapHas_mapSet_iff _ _ _ _).mpr (Or.inr rfl)

/-- Witness for C8's theorem at a concrete unidentified sender. -/
theorem claim8_unidentified_dropped_witness :
    (({ type := "offer" } : Msg).type ≠ "ping" ∧
     ({ type := "offer" } : Msg).type ≠ "pong" ∧
     ({ type := "offer" } : Msg).type ≠ "client-type" ∧
     ({ type := "offer" } : Msg).type ≠ "camera-status" ∧
     ({ type := "offer" } : Msg).type ≠ "camera-error" ∧
     ({} : VariantA.StateA).androidClient ≠ some "u" ∧
     mapHas ({} : VariantA.StateA).browserClients "u" = false ∧
     mapHas (⟨[], []⟩ : VariantB.StateB).androidClients "u" = false ∧
     mapHas (⟨[], []⟩ : VariantB.StateB).browserClients "u" = false) ∧
    (VariantA.handleMessage env0 {} "u" "ip" (some { type := "offer" }) 7 =
      ({ connectionTimestamps := mapSet ([] : List (String × Nat)) "u" 7 }, []) ∧
     VariantB.handleMessage env0 ⟨[], []⟩ "u" "ip" (some { type := "offer" }) 7 = (⟨[], []⟩, []) ∧
     mapHas ((VariantA.handleMessage env0
        ((VariantA.handleMessage env0 {} "u" "ip" (some { type := "offer" }) 7).1) "u" "ip"
        (some (clientTypeMsg "browser")) 8).1).browserClients "u" = true ∧
     mapHas ((VariantB.handleMessage env0 ⟨[], []⟩ "u" "ip"
        (some (clientTypeMsg "android")) 8).1).androidClients "u" = true) :=
  ⟨⟨by decide, by decide, by decide, by decide, by decide, by decide, rfl, rfl, rfl⟩,
   claim8_unidentified_dropped env0 {} ⟨[], []⟩ "u" "ip" { type := "offer" } 7 8
     (by decide) (by decide) (by decide) (by decide) (by decide) (by decide) rfl rfl rfl⟩

/-- C8 counterexample: a `camera-status` envelope from a connection that
never identified is NOT dropped — variant A broadcasts it to every
Viewer (the camera branches run before any sender-identity check). -/
theorem claim8_counterexample :
    (VariantA.handleMessage env0 { browserClients := [("b", ⟨"b", "ip", 0⟩)] } "u" "ip"
      (some { type := "camera-status", status := some "on" }) 9).2 =
      [Effect.sent "b" { type := "camera-status", status := some "on" }] := by
  decide

/-- C2 (amended): for a non-`ping`/`pong`/`client-type` (and, in variant
A, non-camera) envelope from a registered Viewer: variant A ignores any
explicit target and unicasts to the single `androidClient` when it is
open, otherwise replies to the sender with an `error` envelope whose
message is "Android client not connected" (not "No source device
connected"); variant B tags the envelope with the Viewer's tag and, when
an explicit registered target is named, unicasts to it only if its
socket is open (silently dropping otherwise, with no fallback), and when
no registered target is named unicasts to `firstSource()` only if open —
when no open Source is available, variant B drops the envelope silently
and never sends an error reply. -/
theorem claim2_viewer_relay_routing (env : Env) (sa : VariantA.StateA) (sb : VariantB.StateB)
    (ws ip : String) (m : Msg) (now : Nat) (infoB : VariantB.BrowserClient)
    (h1 : m.type ≠ "ping") (h2 : m.type ≠ "pong") (h3 : m.type ≠ "client-type")
    (h4 : m.type ≠ "camera-status") (h5 : m.type ≠ "camera-error")
    (hA1 : sa.androidClient ≠ some ws) (hA2 : mapHas sa.browserClients ws = true)
    (hB1 : mapHas sb.androidClients ws = false)
    (hBg : mapGet? sb.browserClients ws = some infoB) :
    (VariantA.handleMessage env sa ws ip (some m) now).2 =
      (match sa.androidClient with
       | some a => if env.isOpen a then [Effect.sent a m]
                   else [Effect.sent ws (VariantA.noAndroidMsg now)]
       | none => [Effect.sent ws (VariantA.noAndroidMsg now)]) ∧
    (VariantB.handleMessage env sb ws ip (some m) now).2 =
      (match m.androidId with
       | some aid =>
         if mapHas sb.androidClients aid then
           (if env.isOpen aid then
              [Effect.sent aid { m with browserId := some infoB.browserId }]
            else [])
         else
           (match sb.androidClients.head? with
            | some (fid, _) =>
              if env.isOpen fid then
                [Effect.sent fid { m with browserId := some infoB.browserId }]
              else []
            | none => [])
       | none =>
         (match sb.androidClients.head? with
          | some (fid, _) =>
            if env.isOpen fid then
              [Effect.sent fid { m with browserId := some infoB.browserId }]
            else []
          | none => [])) := by
  constructor
  · rcases ha : sa.androidClient with _ | a
    · simp [VariantA.handleMessage, h1, h2, h3, h4, h5, hA1, hA2, ha]
    · have hA1' : ¬(a = ws) := by
        intro hh
        exact hA1 (by rw [ha, hh])
      by_cases ho : env.isOpen a = true <;>
        simp [VariantA.handleMessage, h1, h2, h3, h4, h5, hA2, ha, ho, hA1']
  · have hBb : mapHas sb.browserClients ws = true := mapHas_of_mapGet? _ _ _ hBg
    simp only [VariantB.handleMessage]
    rw [if_neg (by simp [h1]), if_neg (by simp [h2]), if_neg (by simp [h3]),
      if_neg (by simp [hB1]), if_pos hBb, hBg]
    simp only
    cases hm : m.androidId with
    | none =>
      simp only
      cases hh : sb.androidClients.head? with
      | none => simp
      | some p =>
        obtain ⟨fid, f0⟩ := p
        by_cases ho : env.isOpen fid = true <;> simp [ho]
    | some aid =>
      simp only
      by_cases hreg : mapHas sb.androidClients aid = true
      · by_cases ho : env.isOpen aid = true <;> simp [hreg, ho]
      · have hreg' : mapHas sb.androidClients aid = false := Bool.eq_false_iff.mpr hreg
        cases hh : sb.androidClients.head? with
        | none => simp [hreg']
        | some p =>
          obtain ⟨fid, f0⟩ := p
          by_cases ho : env.isOpen fid = true <;> simp [hreg', ho]

/-- Witness for C2's theorem: a Viewer relays an `offer` while no Source
is registered in either variant. -/
theorem claim2_viewer_relay_routing_witness :
    (({ type := "offer" } : Msg).type ≠ "ping" ∧
     ({ type := "offer" } : Msg).type ≠ "pong" ∧
     ({ type := "offer" } : Msg).type ≠ "client-type" ∧
     ({ type := "offer" } : Msg).type ≠ "camera-status" ∧
     ({ type := "offer" } : Msg).type ≠ "camera-error" ∧
     ({ browserClients := [("b", ⟨"b", "ip", 0⟩)] } : VariantA.StateA).androidClient ≠ some "b" ∧
     mapHas ({ browserClients := [("b", ⟨"b", "ip", 0⟩)] } : VariantA.StateA).browserClients "b" = true ∧
     mapHas ({ browserClients := [("b", ⟨"b", 0⟩)] } : VariantB.StateB).androidClients "b" = false ∧
     mapGet? ({ browserClients := [("b", ⟨"b", 0⟩)] } : VariantB.StateB).browserClients "b" =
       some ⟨"b", 0⟩) ∧
    ((VariantA.handleMessage env0 { browserClients := [("b", ⟨"b", "ip", 0⟩)] } "b" "ip"
        (some { type := "offer" }) 5).2 =
      (match ({ browserClients := [("b", ⟨"b", "ip", 0⟩)] } : VariantA.StateA).androidClient with
       | some a => if env0.isOpen a then [Effect.sent a { type := "offer" }]
                   else [Effect.sent "b" (VariantA.noAndroidMsg 5)]
       | none => [Effect.sent "b" (VariantA.noAndroidMsg 5)]) ∧
     (VariantB.handleMessage env0 { browserClients := [("b", ⟨"b", 0⟩)] } "b" "ip"
        (some { type := "offer" }) 5).2 =
      (match ({ type := "offer" } : Msg).androidId with
       | some aid =>
         if mapHas ({ browserClients := [("b", ⟨"b", 0⟩)] } : VariantB.StateB).androidClients aid then
           (if env0.isOpen aid then
              [Effect.sent aid { ({ type := "offer" } : Msg) with
                browserId := some (VariantB.BrowserClient.browserId ⟨"b", 0⟩) }]
            else [])
         else
           (match ({ browserClients := [("b", ⟨"b", 0⟩)] } : VariantB.StateB).androidClients.head? with
            | some (fid, _) =>
              if env0.isOpen fid then
                [Effect.sent fid { ({ type := "offer" } : Msg) with
                  browserId := some (VariantB.BrowserClient.browserId ⟨"b", 0⟩) }]
              else []
            | none => [])
       | none =>
         (match ({ browserClients := [("b", ⟨"b", 0⟩)] } : VariantB.StateB).androidClients.head? with
          | some (fid, _) =>
            if env0.isOpen fid then
              [Effect.sent fid { ({ type := "offer" } : Msg) with
                browserId := some (VariantB.BrowserClient.browserId ⟨"b", 0⟩) }]
            else []
          | none => []))) :=
  ⟨⟨by decide, by decide, by decide, by decide, by decide, by decide, rfl, rfl, rfl⟩,
   claim2_viewer_relay_routing env0 { browserClients := [("b", ⟨"b", "ip", 0⟩)] }
     { browserClients := [("b", ⟨"b", 0⟩)] } "b" "ip" { type := "offer" } 5 ⟨"b", 0⟩
     (by decide) (by decide) (by decide) (by decide) (by decide) (by decide) rfl rfl rfl⟩

/-- C2 counterexample: in variant B, an `offer` relayed by a registered
Viewer while no Source is available produces no effect at all — the
Viewer receives no `error` envelope of any kind (let alone one saying
"No source device connected"); the envelope is dropped silently. -/
theorem claim2_counterexample :
    (VariantB.handleMessage env0 { browserClients := [("b", ⟨"b", 0⟩)] } "b" "ip"
      (some { type := "offer" }) 5).2 = [] := by
  decide

theorem sentCountTo_cons_sent (t : String) (msg : Msg) (effs : List Effect) (b ty : String) :
    sentCountTo (Effect.sent t msg :: effs) b ty =
      (if t = b ∧ msg.type = ty then 1 else 0) + sentCountTo effs b ty := by
  by_cases h : t = b ∧ msg.type = ty
  · simp [sentCountTo, List.filter_cons, h.1, h.2, Nat.add_comm]
  · rw [if_neg h]
    have hfalse : (t == b && msg.type == ty) = false := by
      rcases not_and_or.mp h with h' | h' <;> simp [h']
    simp [sentCountTo, List.filter_cons, hfalse]

theorem sentCountTo_cons_sendFailed (t : String) (effs : List Effect) (b ty : String) :
    sentCountTo (Effect.sendFailed t :: effs) b ty = sentCountTo effs b ty := by
  simp [sentCountTo, List.filter_cons]

theorem sentCountTo_broadcastB_absent (env : Env)
    (browsers : List (String × VariantB.BrowserClient)) (m : Msg) (b ty : String)
    (hb : b ∉ browsers.map Prod.fst) :
    sentCountTo (VariantB.broadcastToBrowsers env browsers m).effects b ty = 0 := by
  induction browsers with
  | nil => rfl
  | cons p rest ih =>
    obtain ⟨c, i⟩ := p
    have hcb : ¬(c = b) := by
      intro hh
      exact hb (by simp [hh])
    have hbr : b ∉ rest.map Prod.fst := fun hh => hb (by simp [hh])
    by_cases h1 : env.isOpen c = true
    · by_cases h2 : env.sendOk c = true
      · simp only [VariantB.broadcastToBrowsers, h1, h2, if_true]
        rw [sentCountTo_cons_sent, ih hbr]
        simp [hcb]
      · have h2' : env.sendOk c = false := Bool.eq_false_iff.mpr h2
        simp only [VariantB.broadcastToBrowsers, h1, h2', if_true, Bool.false_eq_true, if_false]
        rw [sentCountTo_cons_sendFailed, ih hbr]
    · have h1' : env.isOpen c = false := Bool.eq_false_iff.mpr h1
      simp only [VariantB.broadcastToBrowsers, h1', Bool.false_eq_true, if_false]
      exact ih hbr

theorem sentCountTo_broadcastB_mem (env : Env)
    (browsers : List (String × VariantB.BrowserClient)) (m : Msg) (b : String)
    (info : VariantB.BrowserClient)
    (hnodup : (browsers.map Prod.fst).Nodup)
    (hmem : (b, info) ∈ browsers)
    (ho : env.isOpen b = true) (hs : env.sendOk b = true) :
    sentCountTo (VariantB.broadcastToBrowsers env browsers m).effects b m.type = 1 := by
  induction browsers with
  | nil => cases hmem
  | cons p rest ih =>
    obtain ⟨c, i⟩ := p
    rw [List.map_cons] at hnodup
    have hnodup' := List.nodup_cons.mp hnodup
    rcases List.mem_cons.mp hmem with heq | hmem'
    · have hcb : c = b := ((Prod.ext_iff.mp heq).1).symm
      have hbr : b ∉ rest.map Prod.fst := hcb ▸ hnodup'.1
      simp only [VariantB.broadcastToBrowsers]
      rw [hcb]
      simp only [ho, hs, if_true]
      rw [sentCountTo_cons_sent, sentCountTo_broadcastB_absent env rest m b m.type hbr]
      simp
    · have hcb : ¬(c = b) := by
        intro hh
        rw [hh] at hnodup'
        exact hnodup'.1 (List.mem_map.mpr ⟨(b, info), hmem', rfl⟩)
      have hrec := ih hnodup'.2 hmem'
      by_cases h1 : env.isOpen c = true
      · by_cases h2 : env.sendOk c = true
        · simp only [VariantB.broadcastToBrowsers, h1, h2, if_true]
          rw [sentCountTo_cons_sent, hrec]
          simp [hcb]
        · have h2' : env.sendOk c = false := Bool.eq_false_iff.mpr h2
          simp only [VariantB.broadcastToBrowsers, h1, h2', if_true, Bool.false_eq_true, if_false]
          rw [sentCountTo_cons_sendFailed, hrec]
      · have h1' : env.isOpen c = false := Bool.eq_false_iff.mpr h1
        simp only [VariantB.broadcastToBrowsers, h1', Bool.false_eq_true, if_false]
        exact hrec

theorem mapDelete_idem {α : Type} (m : List (String × α)) (k : String) :
    mapDelete (mapDelete m k) k = mapDelete m k := by
  simp [mapDelete, List.filter_filter]

theorem mapHas_mapDelete_self {α : Type} (m : List (String × α)) (k : String) :
    mapHas (mapDelete m k) k = false := by
  by_cases h : mapHas (mapDelete m k) k = true
  · exact absurd rfl ((mapHas_mapDelete_iff m k k).mp h).2
  · exact Bool.eq_false_iff.mpr h

/-- C5 (amended): removal from the registry Map is idempotent (a second
`cleanupAndroidClient` leaves the state unchanged, and the record is
already reported absent after the first call), and a close-triggered
teardown of a registered Source delivers exactly one
`android-disconnected` event to each open Viewer; however,
`cleanupAndroidClient` is NOT a no-op when the record is already gone —
it unconditionally re-broadcasts `android-disconnected` to all Viewers
on every invocation (only the membership guards at its call sites keep
each eviction to a single broadcast). -/
theorem claim5_cleanup_rebroadcast (env : Env) (s : VariantB.StateB) (c : String)
    (n1 n2 n3 : Nat)
    (hnodup : (s.browserClients.map Prod.fst).Nodup)
    (hc : mapHas s.androidClients c = true) :
    ((VariantB.cleanupAndroidClient env ((VariantB.cleanupAndroidClient env s c n1).1) c n2).1 =
      (VariantB.cleanupAndroidClient env s c n1).1) ∧
    mapHas ((VariantB.cleanupAndroidClient env s c n1).1).androidClients c = false ∧
    ((VariantB.cleanupAndroidClient env ((VariantB.cleanupAndroidClient env s c n1).1) c n2).2 =
      (VariantB.broadcastToBrowsers env s.browserClients
        (VariantB.androidDisconnectedMsg c n2)).effects) ∧
    (∀ b info, (b, info) ∈ s.browserClients → env.isOpen b = true → env.sendOk b = true →
      sentCountTo (VariantB.handleClose env s c n3).2 b "android-disconnected" = 1) := by
  refine ⟨?_, ?_, ?_, ?_⟩
  · simp [VariantB.cleanupAndroidClient, mapDelete_idem]
  · simp [VariantB.cleanupAndroidClient, mapHas_mapDelete_self]
  · simp [VariantB.cleanupAndroidClient]
  · intro b info hmem hbo hbs
    have heff : (VariantB.handleClose env s c n3).2 =
        (VariantB.broadcastToBrowsers env s.browserClients
          (VariantB.androidDisconnectedMsg c n3)).effects := by
      simp only [VariantB.handleClose, VariantB.cleanupAndroidClient, if_pos hc]
    rw [heff]
    have hcount := sentCountTo_broadcastB_mem env s.browserClients
      (VariantB.androidDisconnectedMsg c n3) b info hnodup hmem hbo hbs
    simpa [VariantB.androidDisconnectedMsg] using hcount

/-- Witness for C5's theorem at a concrete one-Source/one-Viewer state. -/
theorem claim5_cleanup_rebroadcast_witness :
    ((({ androidClients := [("a", ⟨0, "ip"⟩)], browserClients := [("b", ⟨"b", 0⟩)] }
        : VariantB.StateB).browserClients.map Prod.fst).Nodup ∧
     mapHas ({ androidClients := [("a", ⟨0, "ip"⟩)], browserClients := [("b", ⟨"b", 0⟩)] }
        : VariantB.StateB).androidClients "a" = true) ∧
    (((VariantB.cleanupAndroidClient env0
        ((VariantB.cleanupAndroidClient env0
          { androidClients := [("a", ⟨0, "ip"⟩)], browserClients := [("b", ⟨"b", 0⟩)] } "a" 1).1)
        "a" 2).1 =
      (VariantB.cleanupAndroidClient env0
        { androidClients := [("a", ⟨0, "ip"⟩)], browserClients := [("b", ⟨"b", 0⟩)] } "a" 1).1) ∧
     mapHas ((VariantB.cleanupAndroidClient env0
        { androidClients := [("a", ⟨0, "ip"⟩)], browserClients := [("b", ⟨"b", 0⟩)] }
        "a" 1).1).androidClients "a" = false ∧
     ((VariantB.cleanupAndroidClient env0
        ((VariantB.cleanupAndroidClient env0
          { androidClients := [("a", ⟨0, "ip"⟩)], browserClients := [("b", ⟨"b", 0⟩)] } "a" 1).1)
        "a" 2).2 =
      (VariantB.broadcastToBrowsers env0
        ({ androidClients := [("a", ⟨0, "ip"⟩)], browserClients := [("b", ⟨"b", 0⟩)] }
          : VariantB.StateB).browserClients
        (VariantB.androidDisconnectedMsg "a" 2)).effects) ∧
     (∀ b info,
        (b, info) ∈ ({ androidClients := [("a", ⟨0, "ip"⟩)], browserClients := [("b", ⟨"b", 0⟩)] }
          : VariantB.StateB).browserClients →
        env0.isOpen b = true → env0.sendOk b = true →
        sentCountTo (VariantB.handleClose env0
          { androidClients := [("a", ⟨0, "ip"⟩)], browserClients := [("b", ⟨"b", 0⟩)] }
          "a" 3).2 b "android-disconnected" = 1)) :=
  ⟨⟨by decide, rfl⟩,
   claim5_cleanup_rebroadcast env0
     { androidClients := [("a", ⟨0, "ip"⟩)], browserClients := [("b", ⟨"b", 0⟩)] }
     "a" 1 2 3 (by decide) rfl⟩

/-- C5 counterexample: invoking `cleanupAndroidClient` a second time,
after the Source record is already gone, is not free of side effects —
it broadcasts a fresh `android-disconnected` envelope to the Viewers
again (the function never checks whether the record was present). -/
theorem claim5_counterexample :
    (VariantB.cleanupAndroidClient env0
      ((VariantB.cleanupAndroidClient env0
        { androidClients := [("a", ⟨0, "ip"⟩)], browserClients := [("b", ⟨"b", 0⟩)] } "a" 1).1)
      "a" 2).2 =
      [Effect.sent "b" (VariantB.androidDisconnectedMsg "a" 2)] := by
  decide

end Zeta
